import Mathlib

/-!
# Call-trace embedding of `filter::shader::shader_instance`

Source: `source/filters/filter-shader.cpp`.

The filter instance is pure orchestration: every method is a fixed sequence
of calls into three collaborators (the shader effect `_fx`, the offscreen
render target `_rt`, and the host's libobs API).  Each method is embedded as
a function that returns the new instance together with the list of calls it
made, in program order, with their arguments.

Conventions.

* Collaborators that live outside the embedded file are parameters:
  `shader_ops` (class `gfx::shader::shader`), `rendertarget_ops`
  (class `gs::rendertarget`), `obs_host` (answers of the host).
* Const getters (`width()`, `height()`, `get_texture()`,
  `obs_source_get_name`, `obs_filter_get_target`, `obs_filter_get_parent`,
  `obs_source_get_base_width`, `obs_source_get_base_height`,
  `obs_get_base_effect`) are reads of the collaborator state and are not
  listed in the trace; every other call is.  The effect state is only changed
  by the effect's own methods, so repeated `width()` reads inside one
  `video_render` agree.
* The end of a C++ block scope runs the destructors of its locals in reverse
  order of construction; these destructor calls are listed in the trace
  (`rt_render_release`, `debug_marker_end`).
* `uint32_t` values are `Nat` (they are only compared with zero and passed
  on, never combined arithmetically).  `float_t` values are kept symbolic.
-/

namespace StreamFX

/-! ## Handles and enumerations of the host API -/

/-- The handle type `obs_source_t*`. -/
structure obs_source_t where
  id : Nat
deriving DecidableEq, Repr

/-- The handle type `obs_data_t*` (a settings bag). -/
structure obs_data_t where
  id : Nat
deriving DecidableEq, Repr

/-- The handle type `obs_properties_t*`. -/
structure obs_properties_t where
  id : Nat
deriving DecidableEq, Repr

/-- The texture handle returned by `gs::rendertarget::get_texture`. -/
structure gs_texture where
  id : Nat
deriving DecidableEq, Repr

/-- Symbolic `float_t` values.  Conversions are not evaluated: the value
`static_cast<float_t>(n)` is recorded as `of_uint32 n`. -/
inductive float_t where
  | of_int (z : Int)
  | of_uint32 (n : Nat)
  | bits (b : Nat)
deriving DecidableEq, Repr

/-- The libobs `vec4`. -/
structure vec4 where
  x : float_t
  y : float_t
  z : float_t
  w : float_t
deriving DecidableEq, Repr

inductive gs_color_format where
  | GS_UNKNOWN | GS_A8 | GS_R8 | GS_RGBA | GS_BGRX | GS_BGRA
deriving DecidableEq, Repr

inductive gs_zstencil_format where
  | GS_ZS_NONE | GS_Z16 | GS_Z24_S8 | GS_Z32F | GS_Z32F_S8X24
deriving DecidableEq, Repr

inductive obs_allow_direct_render where
  | OBS_NO_DIRECT_RENDERING | OBS_ALLOW_DIRECT_RENDERING
deriving DecidableEq, Repr

inductive obs_base_effect where
  | OBS_EFFECT_DEFAULT | OBS_EFFECT_DEFAULT_RECT | OBS_EFFECT_OPAQUE | OBS_EFFECT_SOLID
deriving DecidableEq, Repr

inductive gs_blend_type where
  | GS_BLEND_ZERO | GS_BLEND_ONE
  | GS_BLEND_SRCCOLOR | GS_BLEND_INVSRCCOLOR
  | GS_BLEND_SRCALPHA | GS_BLEND_INVSRCALPHA
  | GS_BLEND_DSTCOLOR | GS_BLEND_INVDSTCOLOR
  | GS_BLEND_DSTALPHA | GS_BLEND_INVDSTALPHA
  | GS_BLEND_SRCALPHASAT
deriving DecidableEq, Repr

inductive gs_cull_mode where
  | GS_BACK | GS_FRONT | GS_NEITHER
deriving DecidableEq, Repr

/-- The mode argument of the `gfx::shader::shader` constructor. -/
inductive shader_mode where
  | Source | Filter | Transition
deriving DecidableEq, Repr

/-- The two marker colours used by the instance. -/
inductive debug_color where
  | debug_color_source | debug_color_render
deriving DecidableEq, Repr

/-- The libobs clear flag `GS_CLEAR_COLOR` (`1 << 0`). -/
def GS_CLEAR_COLOR : Nat := 1 <<< 0
/-- The libobs clear flag `GS_CLEAR_DEPTH` (`1 << 1`). -/
def GS_CLEAR_DEPTH : Nat := 1 <<< 1
/-- The libobs clear flag `GS_CLEAR_STENCIL` (`1 << 2`). -/
def GS_CLEAR_STENCIL : Nat := 1 <<< 2

/-! ## Calls -/

/-- One call made by the instance into a collaborator, with its arguments.
The second argument of `obs_source_process_filter_end` is recorded as the
base effect `e` whose handle `obs_get_base_effect(e)` is passed. -/
inductive Call where
  -- gfx::shader::shader
  | shader_create (self : obs_source_t) (mode : shader_mode)
  | fx_properties (props : obs_properties_t)
  | fx_tick (sec_since_last : float_t)
  | fx_update (data : obs_data_t)
  | fx_set_size (w h : Nat)
  | fx_prepare_render
  | fx_set_input_a (tex : gs_texture)
  | fx_render
  -- gs::rendertarget
  | rendertarget_create (fmt : gs_color_format) (zs : gs_zstencil_format)
  | rt_render (w h : Nat)
  | rt_render_release
  -- gs::debug_marker
  | debug_marker_begin (color : debug_color) (format : String) (name : String)
  | debug_marker_end
  -- libobs, sources
  | obs_source_get_settings (self : obs_source_t)
  | obs_data_release (data : obs_data_t)
  | obs_source_skip_video_filter (self : obs_source_t)
  | obs_source_process_filter_begin (self : obs_source_t) (fmt : gs_color_format)
      (direct : obs_allow_direct_render)
  | obs_source_process_filter_end (self : obs_source_t) (effect : obs_base_effect) (w h : Nat)
  -- libobs, graphics
  | gs_ortho (left right top bottom znear zfar : float_t)
  | gs_clear (flags : Nat) (color : vec4) (depth : float_t) (stencil : Nat)
  | gs_blend_state_push
  | gs_reset_blend_state
  | gs_enable_blending (enable : Bool)
  | gs_blend_function_separate (src_c dest_c src_a dest_a : gs_blend_type)
  | gs_enable_depth_test (enable : Bool)
  | gs_enable_stencil_test (enable : Bool)
  | gs_enable_stencil_write (enable : Bool)
  | gs_enable_color (red green blue alpha : Bool)
  | gs_set_cull_mode (mode : gs_cull_mode)
  | gs_blend_state_pop
deriving DecidableEq, Repr

/-- The callee of a call, without its arguments. -/
inductive Callee where
  | shader_create | fx_properties | fx_tick | fx_update | fx_set_size
  | fx_prepare_render | fx_set_input_a | fx_render
  | rendertarget_create | rt_render | rt_render_release
  | debug_marker_begin | debug_marker_end
  | obs_source_get_settings | obs_data_release | obs_source_skip_video_filter
  | obs_source_process_filter_begin | obs_source_process_filter_end
  | gs_ortho | gs_clear | gs_blend_state_push | gs_reset_blend_state
  | gs_enable_blending | gs_blend_function_separate | gs_enable_depth_test
  | gs_enable_stencil_test | gs_enable_stencil_write | gs_enable_color
  | gs_set_cull_mode | gs_blend_state_pop
deriving DecidableEq, Repr

/-- The callee of a call. -/
def Call.callee : Call → Callee
  | .shader_create _ _ => .shader_create
  | .fx_properties _ => .fx_properties
  | .fx_tick _ => .fx_tick
  | .fx_update _ => .fx_update
  | .fx_set_size _ _ => .fx_set_size
  | .fx_prepare_render => .fx_prepare_render
  | .fx_set_input_a _ => .fx_set_input_a
  | .fx_render => .fx_render
  | .rendertarget_create _ _ => .rendertarget_create
  | .rt_render _ _ => .rt_render
  | .rt_render_release => .rt_render_release
  | .debug_marker_begin _ _ _ => .debug_marker_begin
  | .debug_marker_end => .debug_marker_end
  | .obs_source_get_settings _ => .obs_source_get_settings
  | .obs_data_release _ => .obs_data_release
  | .obs_source_skip_video_filter _ => .obs_source_skip_video_filter
  | .obs_source_process_filter_begin _ _ _ => .obs_source_process_filter_begin
  | .obs_source_process_filter_end _ _ _ _ => .obs_source_process_filter_end
  | .gs_ortho _ _ _ _ _ _ => .gs_ortho
  | .gs_clear _ _ _ _ => .gs_clear
  | .gs_blend_state_push => .gs_blend_state_push
  | .gs_reset_blend_state => .gs_reset_blend_state
  | .gs_enable_blending _ => .gs_enable_blending
  | .gs_blend_function_separate _ _ _ _ => .gs_blend_function_separate
  | .gs_enable_depth_test _ => .gs_enable_depth_test
  | .gs_enable_stencil_test _ => .gs_enable_stencil_test
  | .gs_enable_stencil_write _ => .gs_enable_stencil_write
  | .gs_enable_color _ _ _ _ => .gs_enable_color
  | .gs_set_cull_mode _ => .gs_set_cull_mode
  | .gs_blend_state_pop => .gs_blend_state_pop

/-- A trace is the list of calls made, oldest first. -/
abbrev Trace := List Call

/-- The calls of a trace that go to the callee `k`, in order, with arguments. -/
def Trace.to (tr : Trace) (k : Callee) : Trace :=
  tr.filter (fun c => decide (c.callee = k))

/-- How many calls of a trace go to the callee `k`. -/
def Trace.count (tr : Trace) (k : Callee) : Nat :=
  (tr.map Call.callee).count k

/-- Position of the first call to `k` in the trace (the length of the trace
when there is none). -/
def Trace.first (tr : Trace) (k : Callee) : Nat :=
  (tr.map Call.callee).indexOf k

/-- The calls of a trace that go to one of the callees `ks`, in order. -/
def Trace.among (tr : Trace) (ks : List Callee) : Trace :=
  tr.filter (fun c => ks.contains c.callee)

/-! ## Collaborators -/

/-- The methods of `gfx::shader::shader` used by the instance, over an
arbitrary effect state `E`. -/
structure shader_ops (E : Type) where
  create : obs_source_t → shader_mode → E
  width : E → Nat
  height : E → Nat
  properties : E → obs_properties_t → E
  tick : E → float_t → Bool × E
  update : E → obs_data_t → E
  set_size : E → Nat → Nat → E
  prepare_render : E → E
  set_input_a : E → gs_texture → E
  render : E → E

/-- The methods of `gs::rendertarget` used by the instance, over an arbitrary
target state `R`.  `render` opens the render scope, `release` is the
destructor of the scope object returned by `render`. -/
structure rendertarget_ops (R : Type) where
  create : gs_color_format → gs_zstencil_format → R
  render : R → Nat → Nat → R
  release : R → R
  get_texture : R → gs_texture

/-- The answers of the host to the queries made during one callback.  Apart
from the const getter `obs_source_get_name`, every query is made at most once
per callback, so one answer per query is fully general. -/
structure obs_host where
  obs_source_get_name : obs_source_t → String
  obs_source_get_settings : obs_source_t → obs_data_t
  obs_filter_get_target : obs_source_t → Option obs_source_t
  obs_filter_get_parent : obs_source_t → Option obs_source_t
  obs_source_get_base_width : obs_source_t → Nat
  obs_source_get_base_height : obs_source_t → Nat
  obs_source_process_filter_begin : obs_source_t → Bool

/-- The data members of `filter::shader::shader_instance`.  `_fx` is a shared
pointer that `video_render` tests for null, so it is optional here. -/
structure shader_instance (E R : Type) where
  _self : obs_source_t
  _fx : Option E
  _rt : R

/-! ## The methods of `shader_instance` -/

section methods
variable {E R : Type}

/-- `shader_instance::update(obs_data_t* data)`: `_fx->update(data)`.
`none` is the dereference of a null `_fx`. -/
def shader_instance.update (fx_ops : shader_ops E) (inst : shader_instance E R)
    (data : obs_data_t) : Option (shader_instance E R × Trace) :=
  match inst._fx with
  | none => none
  | some fx => some ({ inst with _fx := some (fx_ops.update fx data) }, [Call.fx_update data])

/-- `shader_instance::get_width()`: `_fx->width()`. -/
def shader_instance.get_width (fx_ops : shader_ops E) (inst : shader_instance E R) :
    Option Nat :=
  match inst._fx with
  | none => none
  | some fx => some (fx_ops.width fx)

/-- `shader_instance::get_height()`: `_fx->height()`. -/
def shader_instance.get_height (fx_ops : shader_ops E) (inst : shader_instance E R) :
    Option Nat :=
  match inst._fx with
  | none => none
  | some fx => some (fx_ops.height fx)

/-- `shader_instance::properties(obs_properties_t* props)`:
`_fx->properties(props)`. -/
def shader_instance.properties (fx_ops : shader_ops E) (inst : shader_instance E R)
    (props : obs_properties_t) : Option (shader_instance E R × Trace) :=
  match inst._fx with
  | none => none
  | some fx =>
    some ({ inst with _fx := some (fx_ops.properties fx props) }, [Call.fx_properties props])

/-- `shader_instance::load(obs_data_t* data)`: `update(data)`. -/
def shader_instance.load (fx_ops : shader_ops E) (inst : shader_instance E R)
    (data : obs_data_t) : Option (shader_instance E R × Trace) :=
  inst.update fx_ops data

/-- `shader_instance::migrate(obs_data_t*, std::uint64_t)`: empty body. -/
def shader_instance.migrate (inst : shader_instance E R) (_data : obs_data_t)
    (_version : Nat) : shader_instance E R × Trace :=
  (inst, [])

/-- The constructor `shader_instance(obs_data_t* data, obs_source_t* self)`:
the base class stores `self`, then `_fx` and `_rt` are created, then
`update(data)` runs on the instance so built. -/
def shader_instance.construct (fx_ops : shader_ops E) (rt_ops : rendertarget_ops R)
    (data : obs_data_t) (self : obs_source_t) : Option (shader_instance E R × Trace) :=
  let _fx := fx_ops.create self shader_mode.Filter
  let _rt := rt_ops.create gs_color_format.GS_RGBA gs_zstencil_format.GS_ZS_NONE
  let inst : shader_instance E R := { _self := self, _fx := some _fx, _rt := _rt }
  match inst.update fx_ops data with
  | none => none
  | some (inst1, tr) =>
    some (inst1,
      [Call.shader_create self shader_mode.Filter,
       Call.rendertarget_create gs_color_format.GS_RGBA gs_zstencil_format.GS_ZS_NONE] ++ tr)

/-- The first statement of `video_tick`: `if (_fx->tick(sec_since_last))`
with its body, on the effect state `fx`. -/
def tick_refresh (fx_ops : shader_ops E) (host : obs_host) (self : obs_source_t)
    (fx : E) (sec_since_last : float_t) : E × Trace :=
  let r := fx_ops.tick fx sec_since_last
  if r.1 = true then
    let data := host.obs_source_get_settings self
    (fx_ops.update r.2 data,
      [Call.fx_tick sec_since_last,
       Call.obs_source_get_settings self,
       Call.fx_update data,
       Call.obs_data_release data])
  else
    (r.2, [Call.fx_tick sec_since_last])

/-- The second statement of `video_tick`: the `if` / `else if` on
`obs_filter_get_target` and `obs_filter_get_parent`, on the effect state `fx`. -/
def tick_resize (fx_ops : shader_ops E) (host : obs_host) (self : obs_source_t)
    (fx : E) : E × Trace :=
  match host.obs_filter_get_target self with
  | some tgt =>
    (fx_ops.set_size fx (host.obs_source_get_base_width tgt) (host.obs_source_get_base_height tgt),
      [Call.fx_set_size (host.obs_source_get_base_width tgt) (host.obs_source_get_base_height tgt)])
  | none =>
    match host.obs_filter_get_parent self with
    | some src =>
      (fx_ops.set_size fx (host.obs_source_get_base_width src) (host.obs_source_get_base_height src),
        [Call.fx_set_size (host.obs_source_get_base_width src) (host.obs_source_get_base_height src)])
    | none => (fx, [])

/-- `shader_instance::video_tick(float_t sec_since_last)`.  `none` is the
dereference of a null `_fx`. -/
def shader_instance.video_tick (fx_ops : shader_ops E) (host : obs_host)
    (inst : shader_instance E R) (sec_since_last : float_t) :
    Option (shader_instance E R × Trace) :=
  match inst._fx with
  | none => none
  | some fx =>
    let a := tick_refresh fx_ops host inst._self fx sec_since_last
    let b := tick_resize fx_ops host inst._self a.1
    some ({ inst with _fx := some b.1 }, a.2 ++ b.2)

/-- The calls of the capture block of `video_render` up to and including
`obs_source_process_filter_begin`, for the effect size `(w, h)`. -/
def capture_open (host : obs_host) (self : obs_source_t) (w h : Nat) : Trace :=
  [Call.debug_marker_begin debug_color.debug_color_source "%s: Capture"
     (host.obs_source_get_name self),
   Call.rt_render w h,
   Call.gs_ortho (float_t.of_int 0) (float_t.of_uint32 w) (float_t.of_int 0)
     (float_t.of_uint32 h) (float_t.of_int (-1)) (float_t.of_int 1),
   Call.gs_clear (GS_CLEAR_COLOR ||| GS_CLEAR_DEPTH)
     ⟨float_t.of_int 0, float_t.of_int 0, float_t.of_int 0, float_t.of_int 0⟩
     (float_t.of_int 0) 0,
   Call.obs_source_process_filter_begin self gs_color_format.GS_RGBA
     obs_allow_direct_render.OBS_NO_DIRECT_RENDERING]

/-- The calls of the branch of `video_render` taken when
`obs_source_process_filter_begin` returned true, followed by the end of the
capture block (destructors of `op` and of the marker). -/
def capture_draw (self : obs_source_t) (w h : Nat) : Trace :=
  [Call.gs_blend_state_push,
   Call.gs_reset_blend_state,
   Call.gs_enable_blending false,
   Call.gs_blend_function_separate gs_blend_type.GS_BLEND_ONE gs_blend_type.GS_BLEND_ZERO
     gs_blend_type.GS_BLEND_SRCALPHA gs_blend_type.GS_BLEND_ZERO,
   Call.gs_enable_depth_test false,
   Call.gs_enable_stencil_test false,
   Call.gs_enable_stencil_write false,
   Call.gs_enable_color true true true true,
   Call.gs_set_cull_mode gs_cull_mode.GS_NEITHER,
   Call.obs_source_process_filter_end self obs_base_effect.OBS_EFFECT_DEFAULT w h,
   Call.gs_blend_state_pop,
   Call.rt_render_release,
   Call.debug_marker_end]

/-- The calls of the `else` branch of `video_render`, taken when
`obs_source_process_filter_begin` returned false: the skip, then the
`return` leaves the capture block (destructors of `op` and of the marker). -/
def capture_abort (self : obs_source_t) : Trace :=
  [Call.obs_source_skip_video_filter self,
   Call.rt_render_release,
   Call.debug_marker_end]

/-- The calls of the second block of `video_render`, binding the texture `tex`. -/
def effect_pass (host : obs_host) (self : obs_source_t) (tex : gs_texture) : Trace :=
  [Call.debug_marker_begin debug_color.debug_color_render "%s: Render"
     (host.obs_source_get_name self),
   Call.fx_prepare_render,
   Call.fx_set_input_a tex,
   Call.fx_render,
   Call.debug_marker_end]

/-- `shader_instance::video_render(gs_effect_t* effect)`.  The parameter
`effect` is not used by the body and is omitted. -/
def shader_instance.video_render (fx_ops : shader_ops E) (rt_ops : rendertarget_ops R)
    (host : obs_host) (inst : shader_instance E R) : shader_instance E R × Trace :=
  match inst._fx with
  | none => (inst, [Call.obs_source_skip_video_filter inst._self])
  | some fx =>
    if fx_ops.width fx = 0 ∨ fx_ops.height fx = 0 then
      (inst, [Call.obs_source_skip_video_filter inst._self])
    else
      let w := fx_ops.width fx
      let h := fx_ops.height fx
      let rt1 := rt_ops.render inst._rt w h
      if host.obs_source_process_filter_begin inst._self = true then
        let rt2 := rt_ops.release rt1
        let tex := rt_ops.get_texture rt2
        let fx3 := fx_ops.render (fx_ops.set_input_a (fx_ops.prepare_render fx) tex)
        ({ inst with _fx := some fx3, _rt := rt2 },
          capture_open host inst._self w h ++ capture_draw inst._self w h
            ++ effect_pass host inst._self tex)
      else
        ({ inst with _rt := rt_ops.release rt1 },
          capture_open host inst._self w h ++ capture_abort inst._self)

end methods

/-! ## The graphics state of the host

The libobs graphics API is outside the embedded file.  Its state setters are
given their documented meaning: each one stores its arguments in the state
it names.  Calls that are not state setters act on the graphics state through
an arbitrary function `ext`. -/

/-- The libobs `struct blend_state`. -/
structure blend_state where
  enabled : Bool
  src_c : gs_blend_type
  dest_c : gs_blend_type
  src_a : gs_blend_type
  dest_a : gs_blend_type
deriving DecidableEq, Repr

/-- The part of the graphics state that `video_render` sets. -/
structure gs_state where
  cur_blend_state : blend_state
  blend_state_stack : List blend_state
  depth_test : Bool
  stencil_test : Bool
  stencil_write : Bool
  color_red : Bool
  color_green : Bool
  color_blue : Bool
  color_alpha : Bool
  cull_mode : gs_cull_mode
deriving DecidableEq, Repr

/-- The effect of one call on the graphics state. -/
def gs_apply (ext : Call → gs_state → gs_state) (g : gs_state) : Call → gs_state
  | .gs_blend_state_push =>
    { g with blend_state_stack := g.cur_blend_state :: g.blend_state_stack }
  | .gs_blend_state_pop =>
    match g.blend_state_stack with
    | [] => g
    | b :: rest => { g with cur_blend_state := b, blend_state_stack := rest }
  | .gs_reset_blend_state =>
    { g with cur_blend_state :=
        { enabled := true,
          src_c := gs_blend_type.GS_BLEND_SRCALPHA,
          dest_c := gs_blend_type.GS_BLEND_INVSRCALPHA,
          src_a := gs_blend_type.GS_BLEND_ONE,
          dest_a := gs_blend_type.GS_BLEND_INVSRCALPHA } }
  | .gs_enable_blending enable =>
    { g with cur_blend_state := { g.cur_blend_state with enabled := enable } }
  | .gs_blend_function_separate src_c dest_c src_a dest_a =>
    { g with cur_blend_state :=
        { g.cur_blend_state with
          src_c := src_c, dest_c := dest_c, src_a := src_a, dest_a := dest_a } }
  | .gs_enable_depth_test enable => { g with depth_test := enable }
  | .gs_enable_stencil_test enable => { g with stencil_test := enable }
  | .gs_enable_stencil_write enable => { g with stencil_write := enable }
  | .gs_enable_color red green blue alpha =>
    { g with color_red := red, color_green := green, color_blue := blue, color_alpha := alpha }
  | .gs_set_cull_mode mode => { g with cull_mode := mode }
  | c => ext c g

/-- The calls of a trace made before its first call to `k`. -/
def Trace.before (tr : Trace) (k : Callee) : Trace :=
  tr.takeWhile (fun c => !decide (c.callee = k))

/-- The graphics state in force when the first call to `k` of the trace is
made, starting from the state `g0`. -/
def gs_state_at (ext : Call → gs_state → gs_state) (g0 : gs_state) (tr : Trace)
    (k : Callee) : gs_state :=
  (tr.before k).foldl (gs_apply ext) g0

/-- A pixel value. -/
structure rgba where
  r : ℚ
  g : ℚ
  b : ℚ
  a : ℚ
deriving DecidableEq

/-- The per-channel colour weights selected by a blend factor, for a source
pixel `s` and a destination pixel `d`. -/
def blend_weight_rgb : gs_blend_type → rgba → rgba → ℚ × ℚ × ℚ
  | .GS_BLEND_ZERO, _, _ => (0, 0, 0)
  | .GS_BLEND_ONE, _, _ => (1, 1, 1)
  | .GS_BLEND_SRCCOLOR, s, _ => (s.r, s.g, s.b)
  | .GS_BLEND_INVSRCCOLOR, s, _ => (1 - s.r, 1 - s.g, 1 - s.b)
  | .GS_BLEND_SRCALPHA, s, _ => (s.a, s.a, s.a)
  | .GS_BLEND_INVSRCALPHA, s, _ => (1 - s.a, 1 - s.a, 1 - s.a)
  | .GS_BLEND_DSTCOLOR, _, d => (d.r, d.g, d.b)
  | .GS_BLEND_INVDSTCOLOR, _, d => (1 - d.r, 1 - d.g, 1 - d.b)
  | .GS_BLEND_DSTALPHA, _, d => (d.a, d.a, d.a)
  | .GS_BLEND_INVDSTALPHA, _, d => (1 - d.a, 1 - d.a, 1 - d.a)
  | .GS_BLEND_SRCALPHASAT, s, d =>
    (min s.a (1 - d.a), min s.a (1 - d.a), min s.a (1 - d.a))

/-- The alpha weight selected by a blend factor. -/
def blend_weight_alpha : gs_blend_type → rgba → rgba → ℚ
  | .GS_BLEND_ZERO, _, _ => 0
  | .GS_BLEND_ONE, _, _ => 1
  | .GS_BLEND_SRCCOLOR, s, _ => s.a
  | .GS_BLEND_INVSRCCOLOR, s, _ => 1 - s.a
  | .GS_BLEND_SRCALPHA, s, _ => s.a
  | .GS_BLEND_INVSRCALPHA, s, _ => 1 - s.a
  | .GS_BLEND_DSTCOLOR, _, d => d.a
  | .GS_BLEND_INVDSTCOLOR, _, d => 1 - d.a
  | .GS_BLEND_DSTALPHA, _, d => d.a
  | .GS_BLEND_INVDSTALPHA, _, d => 1 - d.a
  | .GS_BLEND_SRCALPHASAT, _, _ => 1

/-- The pixel written when the source pixel `s` is drawn over the destination
pixel `d` under the blend state `b` (additive blend equation; with blending
disabled the source is written as is). -/
def blend_output (b : blend_state) (s d : rgba) : rgba :=
  if b.enabled = true then
    let ws := blend_weight_rgb b.src_c s d
    let wd := blend_weight_rgb b.dest_c s d
    { r := s.r * ws.1 + d.r * wd.1,
      g := s.g * ws.2.1 + d.g * wd.2.1,
      b := s.b * ws.2.2 + d.b * wd.2.2,
      a := s.a * blend_weight_alpha b.src_a s d + d.a * blend_weight_alpha b.dest_a s d }
  else s

/-- The blend state makes every drawn pixel replace the destination pixel,
colour and alpha. -/
def source_replaces_destination (b : blend_state) : Prop :=
  ∀ s d : rgba, blend_output b s d = s

/-! ## Concrete collaborators

A small effect, render target and host on which the methods can be
evaluated. -/

/-- An effect state that reports the size last set and whether a refresh is
due, and remembers the settings and the texture it was last given. -/
structure sample_effect where
  w : Nat
  h : Nat
  due : Bool
  settings : Option obs_data_t
  input_a : Option gs_texture
deriving DecidableEq, Repr

def sample_shader_ops : shader_ops sample_effect where
  create := fun _ _ => ⟨0, 0, false, none, none⟩
  width := fun e => e.w
  height := fun e => e.h
  properties := fun e _ => e
  tick := fun e _ => (e.due, { e with due := false })
  update := fun e data => { e with settings := some data }
  set_size := fun e w h => { e with w := w, h := h }
  prepare_render := fun e => e
  set_input_a := fun e tex => { e with input_a := some tex }
  render := fun e => e

/-- A render target state: the size of its texture, and whether a render
scope is open. -/
structure sample_target where
  w : Nat
  h : Nat
  rendering : Bool
deriving DecidableEq, Repr

def sample_rendertarget_ops : rendertarget_ops sample_target where
  create := fun _ _ => ⟨0, 0, false⟩
  render := fun _ w h => ⟨w, h, true⟩
  release := fun r => { r with rendering := false }
  get_texture := fun r => ⟨r.w * 100000 + r.h⟩

/-- A host in which the filter `1` has the target `2` (1920x1080) and the
parent `3` (1280x720); any other filter has neither.  The capture can begin
exactly when `begin_ok`. -/
def sample_host (begin_ok : Bool) : obs_host where
  obs_source_get_name := fun _ => "shader"
  obs_source_get_settings := fun s => ⟨s.id + 40⟩
  obs_filter_get_target := fun s => if s.id = 1 then some ⟨2⟩ else none
  obs_filter_get_parent := fun s => if s.id = 1 ∨ s.id = 5 then some ⟨3⟩ else none
  obs_source_get_base_width := fun s => if s.id = 2 then 1920 else 1280
  obs_source_get_base_height := fun s => if s.id = 2 then 1080 else 720
  obs_source_process_filter_begin := fun _ => begin_ok

/-- An instance on the node `self` whose effect reports the size `(w, h)`. -/
def sample_instance (self w h : Nat) (due : Bool) :
    shader_instance sample_effect sample_target where
  _self := ⟨self⟩
  _fx := some ⟨w, h, due, none, none⟩
  _rt := ⟨0, 0, false⟩

/-- An all-default graphics state with blending enabled. -/
def sample_gs_state : gs_state where
  cur_blend_state :=
    { enabled := true,
      src_c := gs_blend_type.GS_BLEND_SRCALPHA,
      dest_c := gs_blend_type.GS_BLEND_INVSRCALPHA,
      src_a := gs_blend_type.GS_BLEND_ONE,
      dest_a := gs_blend_type.GS_BLEND_INVSRCALPHA }
  blend_state_stack := []
  depth_test := true
  stencil_test := true
  stencil_write := true
  color_red := false
  color_green := false
  color_blue := false
  color_alpha := false
  cull_mode := gs_cull_mode.GS_BACK

/-! ## Blend states that replace the destination -/

theorem blending_disabled_replaces (b : blend_state) (h : b.enabled = false) :
    source_replaces_destination b := by
  intro s d
  simp [blend_output, h]

theorem blend_one_zero_replaces :
    source_replaces_destination
      { enabled := true,
        src_c := gs_blend_type.GS_BLEND_ONE, dest_c := gs_blend_type.GS_BLEND_ZERO,
        src_a := gs_blend_type.GS_BLEND_ONE, dest_a := gs_blend_type.GS_BLEND_ZERO } := by
  intro s d
  simp [blend_output, blend_weight_rgb, blend_weight_alpha]

theorem blend_srcalpha_enabled_not_replaces :
    ¬ source_replaces_destination
      { enabled := true,
        src_c := gs_blend_type.GS_BLEND_ONE, dest_c := gs_blend_type.GS_BLEND_ZERO,
        src_a := gs_blend_type.GS_BLEND_SRCALPHA, dest_a := gs_blend_type.GS_BLEND_ZERO } := by
  intro h
  have h2 := congrArg rgba.a (h ⟨0, 0, 0, 2⟩ ⟨0, 0, 0, 0⟩)
  simp [blend_output, blend_weight_rgb, blend_weight_alpha] at h2

/-! ## The three paths of `video_render` -/

section paths
variable {E R : Type}

theorem video_render_skip (fx_ops : shader_ops E) (rt_ops : rendertarget_ops R)
    (host : obs_host) (inst : shader_instance E R)
    (h : ∀ fx, inst._fx = some fx → fx_ops.width fx = 0 ∨ fx_ops.height fx = 0) :
    inst.video_render fx_ops rt_ops host
      = (inst, [Call.obs_source_skip_video_filter inst._self]) := by
  unfold shader_instance.video_render
  cases hfx : inst._fx with
  | none => rfl
  | some fx => simp [h fx hfx]

theorem video_render_abort (fx_ops : shader_ops E) (rt_ops : rendertarget_ops R)
    (host : obs_host) (inst : shader_instance E R) (fx : E)
    (hfx : inst._fx = some fx) (hw : fx_ops.width fx ≠ 0) (hh : fx_ops.height fx ≠ 0)
    (hb : host.obs_source_process_filter_begin inst._self = false) :
    inst.video_render fx_ops rt_ops host
      = ({ inst with
            _rt := rt_ops.release
              (rt_ops.render inst._rt (fx_ops.width fx) (fx_ops.height fx)) },
         capture_open host inst._self (fx_ops.width fx) (fx_ops.height fx)
           ++ capture_abort inst._self) := by
  unfold shader_instance.video_render
  simp [hfx, hw, hh, hb]

theorem video_render_apply (fx_ops : shader_ops E) (rt_ops : rendertarget_ops R)
    (host : obs_host) (inst : shader_instance E R) (fx : E)
    (hfx : inst._fx = some fx) (hw : fx_ops.width fx ≠ 0) (hh : fx_ops.height fx ≠ 0)
    (hb : host.obs_source_process_filter_begin inst._self = true) :
    inst.video_render fx_ops rt_ops host
      = ({ inst with
            _fx := some (fx_ops.render (fx_ops.set_input_a (fx_ops.prepare_render fx)
              (rt_ops.get_texture (rt_ops.release
                (rt_ops.render inst._rt (fx_ops.width fx) (fx_ops.height fx)))))),
            _rt := rt_ops.release
              (rt_ops.render inst._rt (fx_ops.width fx) (fx_ops.height fx)) },
         capture_open host inst._self (fx_ops.width fx) (fx_ops.height fx)
           ++ capture_draw inst._self (fx_ops.width fx) (fx_ops.height fx)
           ++ effect_pass host inst._self
               (rt_ops.get_texture (rt_ops.release
                 (rt_ops.render inst._rt (fx_ops.width fx) (fx_ops.height fx))))) := by
  unfold shader_instance.video_render
  simp [hfx, hw, hh, hb]

/-! ## Claims about `video_render` -/

/-- C1: when the effect is absent or reports width 0 or height 0,
`video_render` makes exactly one call, `obs_source_skip_video_filter` on the
own node, and nothing else: the instance (effect and offscreen target) is
returned unchanged, no render is begun on the target, the capture is not
begun, and none of `prepare_render`, `set_input_a`, `render` is called. -/
theorem video_render_zero_size_only_skips (fx_ops : shader_ops E)
    (rt_ops : rendertarget_ops R) (host : obs_host) (inst : shader_instance E R)
    (h : ∀ fx, inst._fx = some fx → fx_ops.width fx = 0 ∨ fx_ops.height fx = 0) :
    (inst.video_render fx_ops rt_ops host).2
        = [Call.obs_source_skip_video_filter inst._self]
      ∧ (inst.video_render fx_ops rt_ops host).1 = inst
      ∧ (inst.video_render fx_ops rt_ops host).2.count .obs_source_skip_video_filter = 1
      ∧ (inst.video_render fx_ops rt_ops host).2.count .rt_render = 0
      ∧ (inst.video_render fx_ops rt_ops host).2.count .gs_clear = 0
      ∧ (inst.video_render fx_ops rt_ops host).2.count .obs_source_process_filter_begin = 0
      ∧ (inst.video_render fx_ops rt_ops host).2.count .fx_prepare_render = 0
      ∧ (inst.video_render fx_ops rt_ops host).2.count .fx_set_input_a = 0
      ∧ (inst.video_render fx_ops rt_ops host).2.count .fx_render = 0 := by
  rw [video_render_skip fx_ops rt_ops host inst h]
  exact ⟨rfl, rfl, rfl, rfl, rfl, rfl, rfl, rfl, rfl⟩

theorem video_render_zero_size_only_skips_witness :
    (((sample_instance 1 0 1080 false).video_render sample_shader_ops
        sample_rendertarget_ops (sample_host true)).2
        = [Call.obs_source_skip_video_filter ⟨1⟩]
      ∧ ((sample_instance 1 0 1080 false).video_render sample_shader_ops
        sample_rendertarget_ops (sample_host true)).1 = sample_instance 1 0 1080 false)
    ∧ ((sample_instance 1 1920 0 false).video_render sample_shader_ops
        sample_rendertarget_ops (sample_host true)).2
        = [Call.obs_source_skip_video_filter ⟨1⟩]
    ∧ (shader_instance.video_render sample_shader_ops sample_rendertarget_ops
        (sample_host true) { _self := ⟨1⟩, _fx := none, _rt := ⟨640, 480, false⟩ }).2
        = [Call.obs_source_skip_video_filter ⟨1⟩] :=
  have key := video_render_zero_size_only_skips sample_shader_ops sample_rendertarget_ops
    (sample_host true) (sample_instance 1 0 1080 false)
    (fun fx hfx => Or.inl (by cases hfx; rfl))
  ⟨⟨key.1, key.2.1⟩,
   (video_render_zero_size_only_skips sample_shader_ops sample_rendertarget_ops
      (sample_host true) (sample_instance 1 1920 0 false)
      (fun fx hfx => Or.inr (by cases hfx; rfl))).1,
   (video_render_zero_size_only_skips sample_shader_ops sample_rendertarget_ops
      (sample_host true) { _self := ⟨1⟩, _fx := none, _rt := ⟨640, 480, false⟩ }
      (fun fx hfx => Option.noConfusion hfx)).1⟩

/-- C5: with non-zero effect width and height, when
`obs_source_process_filter_begin` returns false, `video_render` calls
`obs_source_skip_video_filter` exactly once (on the own node, after the
failed begin), never calls `obs_source_process_filter_end`, and returns
without the effect pass: `prepare_render`, `set_input_a` and `render` are not
called and the effect is left as it was. -/
theorem video_render_begin_failed_skips (fx_ops : shader_ops E)
    (rt_ops : rendertarget_ops R) (host : obs_host) (inst : shader_instance E R) (fx : E)
    (hfx : inst._fx = some fx) (hw : fx_ops.width fx ≠ 0) (hh : fx_ops.height fx ≠ 0)
    (hb : host.obs_source_process_filter_begin inst._self = false) :
    (inst.video_render fx_ops rt_ops host).2.to .obs_source_skip_video_filter
        = [Call.obs_source_skip_video_filter inst._self]
      ∧ (inst.video_render fx_ops rt_ops host).2.count .obs_source_skip_video_filter = 1
      ∧ (inst.video_render fx_ops rt_ops host).2.first .obs_source_process_filter_begin
          < (inst.video_render fx_ops rt_ops host).2.first .obs_source_skip_video_filter
      ∧ (inst.video_render fx_ops rt_ops host).2.count .obs_source_process_filter_end = 0
      ∧ (inst.video_render fx_ops rt_ops host).2.count .fx_prepare_render = 0
      ∧ (inst.video_render fx_ops rt_ops host).2.count .fx_set_input_a = 0
      ∧ (inst.video_render fx_ops rt_ops host).2.count .fx_render = 0
      ∧ (inst.video_render fx_ops rt_ops host).1._fx = inst._fx := by
  rw [video_render_abort fx_ops rt_ops host inst fx hfx hw hh hb]
  exact ⟨rfl, rfl, Nat.le_of_ble_eq_true rfl, rfl, rfl, rfl, rfl, rfl⟩

theorem video_render_begin_failed_skips_witness :
    ((sample_instance 1 1920 1080 false).video_render sample_shader_ops
        sample_rendertarget_ops (sample_host false)).2.count .obs_source_skip_video_filter = 1
      ∧ ((sample_instance 1 1920 1080 false).video_render sample_shader_ops
        sample_rendertarget_ops (sample_host false)).2.count
          .obs_source_process_filter_end = 0 :=
  have key := video_render_begin_failed_skips sample_shader_ops sample_rendertarget_ops
    (sample_host false) (sample_instance 1 1920 1080 false) ⟨1920, 1080, false, none, none⟩
    rfl (by decide) (by decide) rfl
  ⟨key.2.1, key.2.2.2.1⟩

/-- C6: when the effect reports width `w` and height `h`, both non-zero,
`video_render` opens with the capture (not with the skip): exactly one render
is begun on the offscreen target, with size `(w, h)`; then the orthographic
projection is set to `(0, w, 0, h, -1, 1)`; then colour and depth are cleared;
then `obs_source_process_filter_begin` is called, exactly once.  When that
call returns true, `obs_source_process_filter_end` is called exactly once with
size `(w, h)` and is followed by exactly one effect pass. -/
theorem video_render_nonzero_size_captures (fx_ops : shader_ops E)
    (rt_ops : rendertarget_ops R) (host : obs_host) (inst : shader_instance E R) (fx : E)
    (hfx : inst._fx = some fx) (hw : fx_ops.width fx ≠ 0) (hh : fx_ops.height fx ≠ 0) :
    (∃ rest, (inst.video_render fx_ops rt_ops host).2
        = [Call.debug_marker_begin debug_color.debug_color_source "%s: Capture"
             (host.obs_source_get_name inst._self),
           Call.rt_render (fx_ops.width fx) (fx_ops.height fx),
           Call.gs_ortho (float_t.of_int 0) (float_t.of_uint32 (fx_ops.width fx))
             (float_t.of_int 0) (float_t.of_uint32 (fx_ops.height fx))
             (float_t.of_int (-1)) (float_t.of_int 1),
           Call.gs_clear (GS_CLEAR_COLOR ||| GS_CLEAR_DEPTH)
             ⟨float_t.of_int 0, float_t.of_int 0, float_t.of_int 0, float_t.of_int 0⟩
             (float_t.of_int 0) 0,
           Call.obs_source_process_filter_begin inst._self gs_color_format.GS_RGBA
             obs_allow_direct_render.OBS_NO_DIRECT_RENDERING] ++ rest)
      ∧ (inst.video_render fx_ops rt_ops host).2.to .rt_render
          = [Call.rt_render (fx_ops.width fx) (fx_ops.height fx)]
      ∧ (inst.video_render fx_ops rt_ops host).2.to .gs_ortho
          = [Call.gs_ortho (float_t.of_int 0) (float_t.of_uint32 (fx_ops.width fx))
               (float_t.of_int 0) (float_t.of_uint32 (fx_ops.height fx))
               (float_t.of_int (-1)) (float_t.of_int 1)]
      ∧ (inst.video_render fx_ops rt_ops host).2.to .gs_clear
          = [Call.gs_clear (GS_CLEAR_COLOR ||| GS_CLEAR_DEPTH)
               ⟨float_t.of_int 0, float_t.of_int 0, float_t.of_int 0, float_t.of_int 0⟩
               (float_t.of_int 0) 0]
      ∧ (GS_CLEAR_COLOR ||| GS_CLEAR_DEPTH) &&& GS_CLEAR_COLOR = GS_CLEAR_COLOR
      ∧ (GS_CLEAR_COLOR ||| GS_CLEAR_DEPTH) &&& GS_CLEAR_DEPTH = GS_CLEAR_DEPTH
      ∧ (inst.video_render fx_ops rt_ops host).2.to .obs_source_process_filter_begin
          = [Call.obs_source_process_filter_begin inst._self gs_color_format.GS_RGBA
               obs_allow_direct_render.OBS_NO_DIRECT_RENDERING]
      ∧ (inst.video_render fx_ops rt_ops host).2.count .obs_source_process_filter_begin = 1
      ∧ (host.obs_source_process_filter_begin inst._self = true →
          (inst.video_render fx_ops rt_ops host).2.to .obs_source_process_filter_end
              = [Call.obs_source_process_filter_end inst._self
                   obs_base_effect.OBS_EFFECT_DEFAULT (fx_ops.width fx) (fx_ops.height fx)]
            ∧ (inst.video_render fx_ops rt_ops host).2.count .obs_source_skip_video_filter = 0
            ∧ (inst.video_render fx_ops rt_ops host).2.count .fx_prepare_render = 1
            ∧ (inst.video_render fx_ops rt_ops host).2.count .fx_set_input_a = 1
            ∧ (inst.video_render fx_ops rt_ops host).2.count .fx_render = 1
            ∧ (inst.video_render fx_ops rt_ops host).2.first .obs_source_process_filter_end
                < (inst.video_render fx_ops rt_ops host).2.first .fx_prepare_render
            ∧ (inst.video_render fx_ops rt_ops host).2.first .fx_prepare_render
                < (inst.video_render fx_ops rt_ops host).2.first .fx_set_input_a
            ∧ (inst.video_render fx_ops rt_ops host).2.first .fx_set_input_a
                < (inst.video_render fx_ops rt_ops host).2.first .fx_render) := by
  cases hb : host.obs_source_process_filter_begin inst._self with
  | false =>
    rw [video_render_abort fx_ops rt_ops host inst fx hfx hw hh hb]
    exact ⟨⟨capture_abort inst._self, rfl⟩, rfl, rfl, rfl, by decide, by decide, rfl, rfl,
      fun hne => Bool.noConfusion hne⟩
  | true =>
    rw [video_render_apply fx_ops rt_ops host inst fx hfx hw hh hb]
    exact ⟨⟨capture_draw inst._self (fx_ops.width fx) (fx_ops.height fx)
        ++ effect_pass host inst._self (rt_ops.get_texture (rt_ops.release
            (rt_ops.render inst._rt (fx_ops.width fx) (fx_ops.height fx)))), rfl⟩,
      rfl, rfl, rfl, by decide, by decide, rfl, rfl,
      fun _ => ⟨rfl, rfl, rfl, rfl, rfl, Nat.le_of_ble_eq_true rfl,
        Nat.le_of_ble_eq_true rfl, Nat.le_of_ble_eq_true rfl⟩⟩

theorem video_render_nonzero_size_captures_witness :
    ((sample_instance 1 1920 1080 false).video_render sample_shader_ops
        sample_rendertarget_ops (sample_host true)).2.to .rt_render
        = [Call.rt_render 1920 1080]
      ∧ ((sample_instance 1 1920 1080 false).video_render sample_shader_ops
        sample_rendertarget_ops (sample_host true)).2.to .obs_source_process_filter_end
        = [Call.obs_source_process_filter_end ⟨1⟩ obs_base_effect.OBS_EFFECT_DEFAULT
             1920 1080]
      ∧ ((sample_instance 1 1920 1080 false).video_render sample_shader_ops
        sample_rendertarget_ops (sample_host true)).2.count .fx_render = 1 :=
  have key := video_render_nonzero_size_captures sample_shader_ops sample_rendertarget_ops
    (sample_host true) (sample_instance 1 1920 1080 false) ⟨1920, 1080, false, none, none⟩
    rfl (by decide) (by decide)
  ⟨key.2.1, (key.2.2.2.2.2.2.2.2 rfl).1, (key.2.2.2.2.2.2.2.2 rfl).2.2.2.2.1⟩

/-- C4: in a `video_render` call that reaches the effect pass (non-zero size,
capture begun), the render scope opened by `_rt->render` is released after
`obs_source_process_filter_end` and strictly before `prepare_render`; the
calls on the effect are exactly `prepare_render`, `set_input_a(t)`, `render`
in that order, consecutive, at the end of the trace; and `t` is the texture
of the instance's own target in the state left by this call's
`render(w, h)` and its release. -/
theorem video_render_capture_then_effect (fx_ops : shader_ops E)
    (rt_ops : rendertarget_ops R) (host : obs_host) (inst : shader_instance E R) (fx : E)
    (hfx : inst._fx = some fx) (hw : fx_ops.width fx ≠ 0) (hh : fx_ops.height fx ≠ 0)
    (hb : host.obs_source_process_filter_begin inst._self = true) :
    (inst.video_render fx_ops rt_ops host).2.to .rt_render
        = [Call.rt_render (fx_ops.width fx) (fx_ops.height fx)]
      ∧ (inst.video_render fx_ops rt_ops host).2.count .rt_render_release = 1
      ∧ (inst.video_render fx_ops rt_ops host).2.first .rt_render
          < (inst.video_render fx_ops rt_ops host).2.first .obs_source_process_filter_end
      ∧ (inst.video_render fx_ops rt_ops host).2.first .obs_source_process_filter_end
          < (inst.video_render fx_ops rt_ops host).2.first .rt_render_release
      ∧ (inst.video_render fx_ops rt_ops host).2.first .rt_render_release
          < (inst.video_render fx_ops rt_ops host).2.first .fx_prepare_render
      ∧ (inst.video_render fx_ops rt_ops host).1._rt
          = rt_ops.release (rt_ops.render inst._rt (fx_ops.width fx) (fx_ops.height fx))
      ∧ (inst.video_render fx_ops rt_ops host).2.among
            [.fx_tick, .fx_update, .fx_set_size, .fx_properties,
             .fx_prepare_render, .fx_set_input_a, .fx_render]
          = [Call.fx_prepare_render,
             Call.fx_set_input_a
               (rt_ops.get_texture (inst.video_render fx_ops rt_ops host).1._rt),
             Call.fx_render]
      ∧ (∃ pre, (inst.video_render fx_ops rt_ops host).2
          = pre ++ [Call.fx_prepare_render,
                    Call.fx_set_input_a
                      (rt_ops.get_texture (inst.video_render fx_ops rt_ops host).1._rt),
                    Call.fx_render,
                    Call.debug_marker_end]
            ∧ pre.count .rt_render = 1 ∧ pre.count .rt_render_release = 1) := by
  rw [video_render_apply fx_ops rt_ops host inst fx hfx hw hh hb]
  exact ⟨rfl, rfl, Nat.le_of_ble_eq_true rfl, Nat.le_of_ble_eq_true rfl,
    Nat.le_of_ble_eq_true rfl, rfl, rfl,
    ⟨capture_open host inst._self (fx_ops.width fx) (fx_ops.height fx)
        ++ capture_draw inst._self (fx_ops.width fx) (fx_ops.height fx)
        ++ [Call.debug_marker_begin debug_color.debug_color_render "%s: Render"
              (host.obs_source_get_name inst._self)],
      rfl, rfl, rfl⟩⟩

theorem video_render_capture_then_effect_witness :
    ((sample_instance 1 1920 1080 false).video_render sample_shader_ops
        sample_rendertarget_ops (sample_host true)).2.among
          [.fx_tick, .fx_update, .fx_set_size, .fx_properties,
           .fx_prepare_render, .fx_set_input_a, .fx_render]
      = [Call.fx_prepare_render,
         Call.fx_set_input_a
           (sample_rendertarget_ops.get_texture
             ((sample_instance 1 1920 1080 false).video_render sample_shader_ops
                sample_rendertarget_ops (sample_host true)).1._rt),
         Call.fx_render] :=
  (video_render_capture_then_effect sample_shader_ops sample_rendertarget_ops
    (sample_host true) (sample_instance 1 1920 1080 false) ⟨1920, 1080, false, none, none⟩
    rfl (by decide) (by decide) rfl).2.2.2.2.2.2.1

/-- C7: in the successful capture branch of `video_render`, whatever the
graphics state was before and whatever the other calls did to it, the state
in force when `obs_source_process_filter_end` is called has blending
disabled, so that every drawn pixel replaces the destination pixel in colour
and in alpha; the blend factors recorded are colour ONE / ZERO and alpha
SRCALPHA / ZERO; depth test, stencil test and stencil write are disabled, all
four colour channels are write-enabled, and the cull mode is GS_NEITHER. -/
theorem video_render_state_at_filter_end (fx_ops : shader_ops E)
    (rt_ops : rendertarget_ops R) (host : obs_host) (inst : shader_instance E R) (fx : E)
    (ext : Call → gs_state → gs_state) (g0 : gs_state)
    (hfx : inst._fx = some fx) (hw : fx_ops.width fx ≠ 0) (hh : fx_ops.height fx ≠ 0)
    (hb : host.obs_source_process_filter_begin inst._self = true) :
    (inst.video_render fx_ops rt_ops host).2.count .obs_source_process_filter_end = 1
      ∧ source_replaces_destination
          (gs_state_at ext g0 (inst.video_render fx_ops rt_ops host).2
            .obs_source_process_filter_end).cur_blend_state
      ∧ (gs_state_at ext g0 (inst.video_render fx_ops rt_ops host).2
            .obs_source_process_filter_end).cur_blend_state
          = { enabled := false,
              src_c := gs_blend_type.GS_BLEND_ONE,
              dest_c := gs_blend_type.GS_BLEND_ZERO,
              src_a := gs_blend_type.GS_BLEND_SRCALPHA,
              dest_a := gs_blend_type.GS_BLEND_ZERO }
      ∧ (gs_state_at ext g0 (inst.video_render fx_ops rt_ops host).2
            .obs_source_process_filter_end).depth_test = false
      ∧ (gs_state_at ext g0 (inst.video_render fx_ops rt_ops host).2
            .obs_source_process_filter_end).stencil_test = false
      ∧ (gs_state_at ext g0 (inst.video_render fx_ops rt_ops host).2
            .obs_source_process_filter_end).stencil_write = false
      ∧ (gs_state_at ext g0 (inst.video_render fx_ops rt_ops host).2
            .obs_source_process_filter_end).color_red = true
      ∧ (gs_state_at ext g0 (inst.video_render fx_ops rt_ops host).2
            .obs_source_process_filter_end).color_green = true
      ∧ (gs_state_at ext g0 (inst.video_render fx_ops rt_ops host).2
            .obs_source_process_filter_end).color_blue = true
      ∧ (gs_state_at ext g0 (inst.video_render fx_ops rt_ops host).2
            .obs_source_process_filter_end).color_alpha = true
      ∧ (gs_state_at ext g0 (inst.video_render fx_ops rt_ops host).2
            .obs_source_process_filter_end).cull_mode = gs_cull_mode.GS_NEITHER := by
  rw [video_render_apply fx_ops rt_ops host inst fx hfx hw hh hb]
  exact ⟨rfl, fun _ _ => rfl, rfl, rfl, rfl, rfl, rfl, rfl, rfl, rfl, rfl⟩

theorem video_render_state_at_filter_end_witness :
    source_replaces_destination
        (gs_state_at (fun _ g => g) sample_gs_state
          ((sample_instance 1 1920 1080 false).video_render sample_shader_ops
            sample_rendertarget_ops (sample_host true)).2
          .obs_source_process_filter_end).cur_blend_state
      ∧ (gs_state_at (fun _ g => g) sample_gs_state
          ((sample_instance 1 1920 1080 false).video_render sample_shader_ops
            sample_rendertarget_ops (sample_host true)).2
          .obs_source_process_filter_end).cull_mode = gs_cull_mode.GS_NEITHER :=
  have key := video_render_state_at_filter_end sample_shader_ops sample_rendertarget_ops
    (sample_host true) (sample_instance 1 1920 1080 false) ⟨1920, 1080, false, none, none⟩
    (fun _ g => g) sample_gs_state rfl (by decide) (by decide) rfl
  ⟨key.2.1, key.2.2.2.2.2.2.2.2.2.2⟩

/-- C10: `video_render` leaves the blend-state stack as it found it on every
path, provided the calls that are not graphics state setters leave it as they
found it.  The pushes and pops are equal in number.  On the two skip paths
(zero size or absent effect; capture not begun) neither
`gs_blend_state_push` nor `gs_blend_state_pop` is called.  On the successful
path there is exactly one push and exactly one pop; the push comes after
`obs_source_process_filter_begin`, the pop after the push and after
`obs_source_process_filter_end`, and both come before the effect pass (its
marker and `prepare_render`). -/
theorem video_render_blend_stack_balanced (fx_ops : shader_ops E)
    (rt_ops : rendertarget_ops R) (host : obs_host) (inst : shader_instance E R)
    (ext : Call → gs_state → gs_state) (g0 : gs_state)
    (hext : ∀ c g, (ext c g).blend_state_stack = g.blend_state_stack) :
    ((inst.video_render fx_ops rt_ops host).2.foldl (gs_apply ext) g0).blend_state_stack
        = g0.blend_state_stack
      ∧ (inst.video_render fx_ops rt_ops host).2.count .gs_blend_state_push
          = (inst.video_render fx_ops rt_ops host).2.count .gs_blend_state_pop
      ∧ ((∀ fx, inst._fx = some fx → fx_ops.width fx = 0 ∨ fx_ops.height fx = 0) →
          (inst.video_render fx_ops rt_ops host).2.count .gs_blend_state_push = 0
            ∧ (inst.video_render fx_ops rt_ops host).2.count .gs_blend_state_pop = 0)
      ∧ (∀ fx, inst._fx = some fx → fx_ops.width fx ≠ 0 → fx_ops.height fx ≠ 0 →
          host.obs_source_process_filter_begin inst._self = false →
          (inst.video_render fx_ops rt_ops host).2.count .gs_blend_state_push = 0
            ∧ (inst.video_render fx_ops rt_ops host).2.count .gs_blend_state_pop = 0)
      ∧ (∀ fx, inst._fx = some fx → fx_ops.width fx ≠ 0 → fx_ops.height fx ≠ 0 →
          host.obs_source_process_filter_begin inst._self = true →
          (inst.video_render fx_ops rt_ops host).2.count .gs_blend_state_push = 1
            ∧ (inst.video_render fx_ops rt_ops host).2.count .gs_blend_state_pop = 1
            ∧ (inst.video_render fx_ops rt_ops host).2.first .obs_source_process_filter_begin
                < (inst.video_render fx_ops rt_ops host).2.first .gs_blend_state_push
            ∧ (inst.video_render fx_ops rt_ops host).2.first .gs_blend_state_push
                < (inst.video_render fx_ops rt_ops host).2.first .gs_blend_state_pop
            ∧ (inst.video_render fx_ops rt_ops host).2.first .obs_source_process_filter_end
                < (inst.video_render fx_ops rt_ops host).2.first .gs_blend_state_pop
            ∧ (inst.video_render fx_ops rt_ops host).2.first .gs_blend_state_pop
                < (inst.video_render fx_ops rt_ops host).2.first .fx_prepare_render
            ∧ ∃ pre tex, (inst.video_render fx_ops rt_ops host).2
                  = pre ++ effect_pass host inst._self tex
                ∧ pre.count .gs_blend_state_push = 1 ∧ pre.count .gs_blend_state_pop = 1) := by
  by_cases hz : ∀ fx, inst._fx = some fx → fx_ops.width fx = 0 ∨ fx_ops.height fx = 0
  · rw [video_render_skip fx_ops rt_ops host inst hz]
    refine ⟨?_, rfl, fun _ => ⟨rfl, rfl⟩, ?_, ?_⟩
    · simp [gs_apply, hext]
    · intro fx hfx hw hh _
      rcases hz fx hfx with h0 | h0
      · exact absurd h0 hw
      · exact absurd h0 hh
    · intro fx hfx hw hh _
      rcases hz fx hfx with h0 | h0
      · exact absurd h0 hw
      · exact absurd h0 hh
  · have hex : ∃ fx, inst._fx = some fx ∧ fx_ops.width fx ≠ 0 ∧ fx_ops.height fx ≠ 0 := by
      by_contra hne
      apply hz
      intro fx hfx
      by_contra hor
      exact hne ⟨fx, hfx, fun h0 => hor (Or.inl h0), fun h0 => hor (Or.inr h0)⟩
    obtain ⟨fx, hfx, hw, hh⟩ := hex
    cases hb : host.obs_source_process_filter_begin inst._self with
    | false =>
      rw [video_render_abort fx_ops rt_ops host inst fx hfx hw hh hb]
      refine ⟨?_, rfl, fun _ => ⟨rfl, rfl⟩, fun _ _ _ _ _ => ⟨rfl, rfl⟩, ?_⟩
      · simp [capture_open, capture_abort, gs_apply, hext]
      · intro _ _ _ _ hne
        exact Bool.noConfusion hne
    | true =>
      rw [video_render_apply fx_ops rt_ops host inst fx hfx hw hh hb]
      refine ⟨?_, rfl, fun hz2 => absurd hz2 hz, ?_, ?_⟩
      · simp [capture_open, capture_draw, effect_pass, gs_apply, hext]
      · intro _ _ _ _ hne
        exact Bool.noConfusion hne
      · intro _ _ _ _ _
        exact ⟨rfl, rfl, Nat.le_of_ble_eq_true rfl, Nat.le_of_ble_eq_true rfl,
          Nat.le_of_ble_eq_true rfl, Nat.le_of_ble_eq_true rfl,
          capture_open host inst._self (fx_ops.width fx) (fx_ops.height fx)
            ++ capture_draw inst._self (fx_ops.width fx) (fx_ops.height fx),
          rt_ops.get_texture (rt_ops.release
            (rt_ops.render inst._rt (fx_ops.width fx) (fx_ops.height fx))),
          rfl, rfl, rfl⟩

theorem video_render_blend_stack_balanced_witness :
    (((sample_instance 1 0 0 false).video_render sample_shader_ops
        sample_rendertarget_ops (sample_host true)).2.count .gs_blend_state_push = 0
      ∧ ((sample_instance 1 0 0 false).video_render sample_shader_ops
        sample_rendertarget_ops (sample_host true)).2.count .gs_blend_state_pop = 0)
    ∧ (((sample_instance 1 1920 1080 false).video_render sample_shader_ops
        sample_rendertarget_ops (sample_host false)).2.count .gs_blend_state_push = 0
      ∧ ((sample_instance 1 1920 1080 false).video_render sample_shader_ops
        sample_rendertarget_ops (sample_host false)).2.count .gs_blend_state_pop = 0)
    ∧ (((sample_instance 1 1920 1080 false).video_render sample_shader_ops
        sample_rendertarget_ops (sample_host true)).2.count .gs_blend_state_push = 1
      ∧ ((sample_instance 1 1920 1080 false).video_render sample_shader_ops
        sample_rendertarget_ops (sample_host true)).2.count .gs_blend_state_pop = 1)
    ∧ (((sample_instance 1 1920 1080 false).video_render sample_shader_ops
        sample_rendertarget_ops (sample_host true)).2.foldl
          (gs_apply (fun _ g => g)) sample_gs_state).blend_state_stack
        = sample_gs_state.blend_state_stack :=
  have k0 := video_render_blend_stack_balanced sample_shader_ops sample_rendertarget_ops
    (sample_host true) (sample_instance 1 0 0 false) (fun _ g => g) sample_gs_state
    (fun _ _ => rfl)
  have k1 := video_render_blend_stack_balanced sample_shader_ops sample_rendertarget_ops
    (sample_host false) (sample_instance 1 1920 1080 false) (fun _ g => g) sample_gs_state
    (fun _ _ => rfl)
  have k2 := video_render_blend_stack_balanced sample_shader_ops sample_rendertarget_ops
    (sample_host true) (sample_instance 1 1920 1080 false) (fun _ g => g) sample_gs_state
    (fun _ _ => rfl)
  ⟨k0.2.2.1 (fun fx hfx => Or.inl (by cases hfx; rfl)),
   k1.2.2.2.1 ⟨1920, 1080, false, none, none⟩ rfl (by decide) (by decide) rfl,
   ⟨(k2.2.2.2.2 ⟨1920, 1080, false, none, none⟩ rfl (by decide) (by decide) rfl).1,
    (k2.2.2.2.2 ⟨1920, 1080, false, none, none⟩ rfl (by decide) (by decide) rfl).2.1⟩,
   k2.1⟩

end paths

/-! ## The paths of `video_tick` -/

section ticks
variable {E R : Type}

theorem Trace.to_append (x y : Trace) (k : Callee) : (x ++ y).to k = x.to k ++ y.to k := by
  simp [Trace.to]

theorem Trace.count_eq_length_to (tr : Trace) (k : Callee) :
    tr.count k = (tr.to k).length := by
  induction tr with
  | nil => rfl
  | cons c t ih =>
    simp only [Trace.count, Trace.to, List.map_cons, List.count_cons, List.filter_cons]
      at ih ⊢
    by_cases h : c.callee = k <;> simp [h, ih]

theorem tick_refresh_due (fx_ops : shader_ops E) (host : obs_host) (self : obs_source_t)
    (fx : E) (dt : float_t) (hdue : (fx_ops.tick fx dt).1 = true) :
    tick_refresh fx_ops host self fx dt
      = (fx_ops.update (fx_ops.tick fx dt).2 (host.obs_source_get_settings self),
         [Call.fx_tick dt,
          Call.obs_source_get_settings self,
          Call.fx_update (host.obs_source_get_settings self),
          Call.obs_data_release (host.obs_source_get_settings self)]) := by
  simp [tick_refresh, hdue]

theorem tick_refresh_not_due (fx_ops : shader_ops E) (host : obs_host) (self : obs_source_t)
    (fx : E) (dt : float_t) (hdue : (fx_ops.tick fx dt).1 = false) :
    tick_refresh fx_ops host self fx dt = ((fx_ops.tick fx dt).2, [Call.fx_tick dt]) := by
  simp [tick_refresh, hdue]

theorem tick_resize_target (fx_ops : shader_ops E) (host : obs_host) (self : obs_source_t)
    (fx : E) (tgt : obs_source_t) (ht : host.obs_filter_get_target self = some tgt) :
    tick_resize fx_ops host self fx
      = (fx_ops.set_size fx (host.obs_source_get_base_width tgt)
           (host.obs_source_get_base_height tgt),
         [Call.fx_set_size (host.obs_source_get_base_width tgt)
            (host.obs_source_get_base_height tgt)]) := by
  simp [tick_resize, ht]

theorem tick_resize_parent (fx_ops : shader_ops E) (host : obs_host) (self : obs_source_t)
    (fx : E) (src : obs_source_t) (ht : host.obs_filter_get_target self = none)
    (hp : host.obs_filter_get_parent self = some src) :
    tick_resize fx_ops host self fx
      = (fx_ops.set_size fx (host.obs_source_get_base_width src)
           (host.obs_source_get_base_height src),
         [Call.fx_set_size (host.obs_source_get_base_width src)
            (host.obs_source_get_base_height src)]) := by
  simp [tick_resize, ht, hp]

theorem tick_resize_neither (fx_ops : shader_ops E) (host : obs_host) (self : obs_source_t)
    (fx : E) (ht : host.obs_filter_get_target self = none)
    (hp : host.obs_filter_get_parent self = none) :
    tick_resize fx_ops host self fx = (fx, []) := by
  simp [tick_resize, ht, hp]

theorem tick_resize_cases (fx_ops : shader_ops E) (host : obs_host) (self : obs_source_t)
    (fx : E) :
    (∃ w h, (tick_resize fx_ops host self fx).2 = [Call.fx_set_size w h])
      ∨ (tick_resize fx_ops host self fx).2 = [] := by
  cases ht : host.obs_filter_get_target self with
  | some tgt => exact Or.inl ⟨_, _, by rw [tick_resize_target fx_ops host self fx tgt ht]⟩
  | none =>
    cases hp : host.obs_filter_get_parent self with
    | some src => exact Or.inl ⟨_, _, by rw [tick_resize_parent fx_ops host self fx src ht hp]⟩
    | none => exact Or.inr (by rw [tick_resize_neither fx_ops host self fx ht hp])

theorem tick_refresh_no_set_size (fx_ops : shader_ops E) (host : obs_host)
    (self : obs_source_t) (fx : E) (dt : float_t) :
    (tick_refresh fx_ops host self fx dt).2.to .fx_set_size = [] := by
  cases hdue : (fx_ops.tick fx dt).1 with
  | true => rw [tick_refresh_due fx_ops host self fx dt hdue]; rfl
  | false => rw [tick_refresh_not_due fx_ops host self fx dt hdue]; rfl

theorem video_tick_some (fx_ops : shader_ops E) (host : obs_host)
    (inst : shader_instance E R) (fx : E) (dt : float_t) (hfx : inst._fx = some fx) :
    inst.video_tick fx_ops host dt
      = some ({ inst with
                _fx := some (tick_resize fx_ops host inst._self
                  (tick_refresh fx_ops host inst._self fx dt).1).1 },
              (tick_refresh fx_ops host inst._self fx dt).2
                ++ (tick_resize fx_ops host inst._self
                  (tick_refresh fx_ops host inst._self fx dt).1).2) := by
  simp [shader_instance.video_tick, hfx]

/-! ## The effect is present in every reachable instance -/

theorem construct_has_effect (fx_ops : shader_ops E) (rt_ops : rendertarget_ops R)
    (data : obs_data_t) (self : obs_source_t) :
    ∃ inst tr, shader_instance.construct fx_ops rt_ops data self = some (inst, tr)
      ∧ inst._fx.isSome = true :=
  ⟨_, _, rfl, rfl⟩

theorem update_keeps_effect (fx_ops : shader_ops E) (inst : shader_instance E R)
    (data : obs_data_t) (h : inst._fx.isSome = true) :
    ∃ inst1 tr, inst.update fx_ops data = some (inst1, tr) ∧ inst1._fx.isSome = true := by
  cases hfx : inst._fx with
  | none => simp [hfx] at h
  | some fx =>
    refine ⟨{ inst with _fx := some (fx_ops.update fx data) }, [Call.fx_update data], ?_, rfl⟩
    simp [shader_instance.update, hfx]

theorem video_tick_keeps_effect (fx_ops : shader_ops E) (host : obs_host)
    (inst : shader_instance E R) (dt : float_t) (h : inst._fx.isSome = true) :
    ∃ inst1 tr, inst.video_tick fx_ops host dt = some (inst1, tr)
      ∧ inst1._fx.isSome = true := by
  cases hfx : inst._fx with
  | none => simp [hfx] at h
  | some fx => exact ⟨_, _, video_tick_some fx_ops host inst fx dt hfx, rfl⟩

theorem video_render_keeps_effect (fx_ops : shader_ops E) (rt_ops : rendertarget_ops R)
    (host : obs_host) (inst : shader_instance E R) (h : inst._fx.isSome = true) :
    (inst.video_render fx_ops rt_ops host).1._fx.isSome = true := by
  unfold shader_instance.video_render
  cases hfx : inst._fx with
  | none => simp [hfx] at h
  | some fx =>
    simp only []
    split
    · simp [hfx]
    · split <;> simp [hfx]

/-! ## Claims about `video_tick`, `update`, `load` and the constructor -/

/-- C2: for every host and every delta, `video_tick` on an instance with an
effect returns, and propagates the size as follows.  If
`obs_filter_get_target` gives a target, `set_size` is called exactly once,
with the base width and height of that target, and the outcome is the same
for every host that agrees on the target, on its base size and on the
settings handle: the parent and its size are not used.  If there is no
target and `obs_filter_get_parent` gives a parent, `set_size` is called
exactly once with the base size of the parent.  If there is neither,
`set_size` is not called. -/
theorem video_tick_size_propagation (fx_ops : shader_ops E) (host : obs_host)
    (inst : shader_instance E R) (fx : E) (dt : float_t) (hfx : inst._fx = some fx) :
    ∃ inst1 tr, inst.video_tick fx_ops host dt = some (inst1, tr)
      ∧ (∀ tgt, host.obs_filter_get_target inst._self = some tgt →
          tr.to .fx_set_size
              = [Call.fx_set_size (host.obs_source_get_base_width tgt)
                   (host.obs_source_get_base_height tgt)]
            ∧ tr.count .fx_set_size = 1
            ∧ ∀ host2 : obs_host,
                host2.obs_filter_get_target inst._self = some tgt →
                host2.obs_source_get_base_width tgt = host.obs_source_get_base_width tgt →
                host2.obs_source_get_base_height tgt = host.obs_source_get_base_height tgt →
                host2.obs_source_get_settings inst._self
                  = host.obs_source_get_settings inst._self →
                inst.video_tick fx_ops host2 dt = some (inst1, tr))
      ∧ (∀ src, host.obs_filter_get_target inst._self = none →
          host.obs_filter_get_parent inst._self = some src →
          tr.to .fx_set_size
              = [Call.fx_set_size (host.obs_source_get_base_width src)
                   (host.obs_source_get_base_height src)]
            ∧ tr.count .fx_set_size = 1)
      ∧ (host.obs_filter_get_target inst._self = none →
          host.obs_filter_get_parent inst._self = none →
          tr.count .fx_set_size = 0) := by
  have hcount : ∀ tr : Trace, tr.count .fx_set_size = (tr.to .fx_set_size).length :=
    fun tr => Trace.count_eq_length_to tr .fx_set_size
  refine ⟨_, _, video_tick_some fx_ops host inst fx dt hfx, ?_, ?_, ?_⟩
  · intro tgt ht
    have hto : ((tick_refresh fx_ops host inst._self fx dt).2
        ++ (tick_resize fx_ops host inst._self
              (tick_refresh fx_ops host inst._self fx dt).1).2).to .fx_set_size
        = [Call.fx_set_size (host.obs_source_get_base_width tgt)
             (host.obs_source_get_base_height tgt)] := by
      rw [Trace.to_append, tick_refresh_no_set_size, tick_resize_target _ _ _ _ tgt ht]
      rfl
    refine ⟨hto, ?_, ?_⟩
    · rw [hcount, hto]; rfl
    · intro host2 ht2 hw2 hh2 hs2
      have e1 : tick_refresh fx_ops host2 inst._self fx dt
          = tick_refresh fx_ops host inst._self fx dt := by
        simp [tick_refresh, hs2]
      rw [video_tick_some fx_ops host2 inst fx dt hfx, e1,
        tick_resize_target _ host2 _ _ tgt ht2, tick_resize_target _ host _ _ tgt ht,
        hw2, hh2]
  · intro src ht hp
    have hto : ((tick_refresh fx_ops host inst._self fx dt).2
        ++ (tick_resize fx_ops host inst._self
              (tick_refresh fx_ops host inst._self fx dt).1).2).to .fx_set_size
        = [Call.fx_set_size (host.obs_source_get_base_width src)
             (host.obs_source_get_base_height src)] := by
      rw [Trace.to_append, tick_refresh_no_set_size, tick_resize_parent _ _ _ _ src ht hp]
      rfl
    refine ⟨hto, ?_⟩
    rw [hcount, hto]; rfl
  · intro ht hp
    rw [hcount, Trace.to_append, tick_refresh_no_set_size,
      tick_resize_neither _ _ _ _ ht hp]
    rfl

theorem video_tick_size_propagation_witness :
    ∃ inst1 tr,
      (sample_instance 1 0 0 false).video_tick sample_shader_ops (sample_host true)
          (float_t.bits 1015580809) = some (inst1, tr)
        ∧ tr.to .fx_set_size = [Call.fx_set_size 1920 1080]
        ∧ tr.count .fx_set_size = 1 :=
  match video_tick_size_propagation sample_shader_ops (sample_host true)
      (sample_instance 1 0 0 false) ⟨0, 0, false, none, none⟩ (float_t.bits 1015580809) rfl with
  | ⟨inst1, tr, hrun, htgt, _, _⟩ => ⟨inst1, tr, hrun, (htgt ⟨2⟩ rfl).1, (htgt ⟨2⟩ rfl).2.1⟩

/-- C3: when `_fx->tick(dt)` returns true in `video_tick`, the effect's
`update` is called exactly once in that tick; its argument is the settings
handle that `obs_source_get_settings` returned for the own node in that same
tick; the order is `tick`, then `obs_source_get_settings`, then `update`,
then (if at all) `set_size`; the update is applied to the effect state left
by `tick`, and the size propagation to the state left by the update, so the
instance handed to the next render carries the update. -/
theorem video_tick_refresh_due_updates_once (fx_ops : shader_ops E) (host : obs_host)
    (inst : shader_instance E R) (fx : E) (dt : float_t) (hfx : inst._fx = some fx)
    (hdue : (fx_ops.tick fx dt).1 = true) :
    ∃ inst1 tr, inst.video_tick fx_ops host dt = some (inst1, tr)
      ∧ tr.to .fx_update = [Call.fx_update (host.obs_source_get_settings inst._self)]
      ∧ tr.count .fx_update = 1
      ∧ tr.to .obs_source_get_settings = [Call.obs_source_get_settings inst._self]
      ∧ tr.to .fx_tick = [Call.fx_tick dt]
      ∧ tr.first .fx_tick < tr.first .obs_source_get_settings
      ∧ tr.first .obs_source_get_settings < tr.first .fx_update
      ∧ tr.first .fx_update < tr.first .fx_set_size
      ∧ tr.first .fx_update < tr.length
      ∧ inst1._fx = some (tick_resize fx_ops host inst._self
          (fx_ops.update (fx_ops.tick fx dt).2
            (host.obs_source_get_settings inst._self))).1 := by
  refine ⟨_, _, video_tick_some fx_ops host inst fx dt hfx, ?_⟩
  rw [tick_refresh_due fx_ops host inst._self fx dt hdue]
  rcases tick_resize_cases fx_ops host inst._self
      (fx_ops.update (fx_ops.tick fx dt).2 (host.obs_source_get_settings inst._self))
    with ⟨w, h, e⟩ | e
  · simp only [e]
    exact ⟨rfl, rfl, rfl, rfl, Nat.le_of_ble_eq_true rfl, Nat.le_of_ble_eq_true rfl,
      Nat.le_of_ble_eq_true rfl, Nat.le_of_ble_eq_true rfl, trivial⟩
  · simp only [e]
    exact ⟨rfl, rfl, rfl, rfl, Nat.le_of_ble_eq_true rfl, Nat.le_of_ble_eq_true rfl,
      Nat.le_of_ble_eq_true rfl, Nat.le_of_ble_eq_true rfl, trivial⟩

theorem video_tick_refresh_due_updates_once_witness :
    ∃ inst1 tr,
      (sample_instance 1 0 0 true).video_tick sample_shader_ops (sample_host true)
          (float_t.bits 1015580809) = some (inst1, tr)
        ∧ tr.to .fx_update = [Call.fx_update ⟨41⟩]
        ∧ tr.count .fx_update = 1 :=
  match video_tick_refresh_due_updates_once sample_shader_ops (sample_host true)
      (sample_instance 1 0 0 true) ⟨0, 0, true, none, none⟩ (float_t.bits 1015580809)
      rfl rfl with
  | ⟨inst1, tr, hrun, hto, hcount, _⟩ => ⟨inst1, tr, hrun, hto, hcount⟩

/-- C9: on every path through `video_tick` (on an instance with an effect) the
number of `obs_source_get_settings` calls equals the number of
`obs_data_release` calls.  When `_fx->tick` returns true there is exactly one
acquisition and exactly one release, of the handle acquired, and the release
comes after `update`.  When `_fx->tick` returns false there is no
acquisition, no release and no `update`. -/
theorem video_tick_settings_released (fx_ops : shader_ops E) (host : obs_host)
    (inst : shader_instance E R) (fx : E) (dt : float_t) (hfx : inst._fx = some fx) :
    ∃ inst1 tr, inst.video_tick fx_ops host dt = some (inst1, tr)
      ∧ tr.count .obs_source_get_settings = tr.count .obs_data_release
      ∧ ((fx_ops.tick fx dt).1 = true →
          tr.to .obs_source_get_settings = [Call.obs_source_get_settings inst._self]
            ∧ tr.to .obs_data_release
                = [Call.obs_data_release (host.obs_source_get_settings inst._self)]
            ∧ tr.to .fx_update = [Call.fx_update (host.obs_source_get_settings inst._self)]
            ∧ tr.first .obs_source_get_settings < tr.first .fx_update
            ∧ tr.first .fx_update < tr.first .obs_data_release)
      ∧ ((fx_ops.tick fx dt).1 = false →
          tr.count .obs_source_get_settings = 0
            ∧ tr.count .obs_data_release = 0
            ∧ tr.count .fx_update = 0) := by
  refine ⟨_, _, video_tick_some fx_ops host inst fx dt hfx, ?_⟩
  cases hdue : (fx_ops.tick fx dt).1 with
  | true =>
    rw [tick_refresh_due fx_ops host inst._self fx dt hdue]
    rcases tick_resize_cases fx_ops host inst._self
        (fx_ops.update (fx_ops.tick fx dt).2 (host.obs_source_get_settings inst._self))
      with ⟨w, h, e⟩ | e
    · simp only [e]
      exact ⟨rfl, fun _ => ⟨rfl, rfl, rfl, Nat.le_of_ble_eq_true rfl,
        Nat.le_of_ble_eq_true rfl⟩, fun hne => Bool.noConfusion hne⟩
    · simp only [e]
      exact ⟨rfl, fun _ => ⟨rfl, rfl, rfl, Nat.le_of_ble_eq_true rfl,
        Nat.le_of_ble_eq_true rfl⟩, fun hne => Bool.noConfusion hne⟩
  | false =>
    rw [tick_refresh_not_due fx_ops host inst._self fx dt hdue]
    rcases tick_resize_cases fx_ops host inst._self (fx_ops.tick fx dt).2
      with ⟨w, h, e⟩ | e
    · simp only [e]
      exact ⟨rfl, fun hne => Bool.noConfusion hne, fun _ => ⟨rfl, rfl, rfl⟩⟩
    · simp only [e]
      exact ⟨rfl, fun hne => Bool.noConfusion hne, fun _ => ⟨rfl, rfl, rfl⟩⟩

theorem video_tick_settings_released_witness :
    (∃ inst1 tr,
      (sample_instance 1 0 0 true).video_tick sample_shader_ops (sample_host true)
          (float_t.bits 1015580809) = some (inst1, tr)
        ∧ tr.to .obs_source_get_settings = [Call.obs_source_get_settings ⟨1⟩]
        ∧ tr.to .obs_data_release = [Call.obs_data_release ⟨41⟩])
    ∧ (∃ inst1 tr,
      (sample_instance 1 0 0 false).video_tick sample_shader_ops (sample_host true)
          (float_t.bits 1015580809) = some (inst1, tr)
        ∧ tr.count .obs_source_get_settings = 0
        ∧ tr.count .obs_data_release = 0) :=
  ⟨match video_tick_settings_released sample_shader_ops (sample_host true)
      (sample_instance 1 0 0 true) ⟨0, 0, true, none, none⟩ (float_t.bits 1015580809) rfl with
    | ⟨inst1, tr, hrun, _, hdue, _⟩ => ⟨inst1, tr, hrun, (hdue rfl).1, (hdue rfl).2.1⟩,
   match video_tick_settings_released sample_shader_ops (sample_host true)
      (sample_instance 1 0 0 false) ⟨0, 0, false, none, none⟩ (float_t.bits 1015580809) rfl with
    | ⟨inst1, tr, hrun, _, _, hnot⟩ => ⟨inst1, tr, hrun, (hnot rfl).1, (hnot rfl).2.1⟩⟩

/-- C8: on an instance with an effect, `load(s)` is `update(s)`, and each makes
exactly one call, `_fx->update(s)` with `s` as given, leaving the node handle
and the offscreen target untouched.  The constructor creates the effect (for
the node, in filter mode) and the offscreen target (GS_RGBA, GS_ZS_NONE) and
then applies that same `update(s)` to the instance so built. -/
theorem load_is_update (fx_ops : shader_ops E) (rt_ops : rendertarget_ops R)
    (inst : shader_instance E R) (fx : E) (s : obs_data_t) (self : obs_source_t)
    (hfx : inst._fx = some fx) :
    inst.load fx_ops s = inst.update fx_ops s
      ∧ inst.update fx_ops s
          = some ({ _self := inst._self, _fx := some (fx_ops.update fx s), _rt := inst._rt },
                  [Call.fx_update s])
      ∧ shader_instance.construct fx_ops rt_ops s self
          = some ({ _self := self,
                    _fx := some (fx_ops.update (fx_ops.create self shader_mode.Filter) s),
                    _rt := rt_ops.create gs_color_format.GS_RGBA
                      gs_zstencil_format.GS_ZS_NONE },
                  [Call.shader_create self shader_mode.Filter,
                   Call.rendertarget_create gs_color_format.GS_RGBA
                     gs_zstencil_format.GS_ZS_NONE,
                   Call.fx_update s])
      ∧ (∃ fresh inst1 tr,
          fresh = ({ _self := self,
                     _fx := some (fx_ops.create self shader_mode.Filter),
                     _rt := rt_ops.create gs_color_format.GS_RGBA
                       gs_zstencil_format.GS_ZS_NONE } : shader_instance E R)
            ∧ fresh.update fx_ops s = some (inst1, tr)
            ∧ shader_instance.construct fx_ops rt_ops s self
                = some (inst1,
                    [Call.shader_create self shader_mode.Filter,
                     Call.rendertarget_create gs_color_format.GS_RGBA
                       gs_zstencil_format.GS_ZS_NONE] ++ tr)) := by
  refine ⟨rfl, ?_, rfl, ⟨_, _, _, rfl, rfl, rfl⟩⟩
  simp [shader_instance.update, hfx]

theorem load_is_update_witness :
    (sample_instance 1 0 0 false).load sample_shader_ops ⟨41⟩
        = (sample_instance 1 0 0 false).update sample_shader_ops ⟨41⟩
      ∧ (sample_instance 1 0 0 false).update sample_shader_ops ⟨41⟩
        = some ({ _self := ⟨1⟩, _fx := some ⟨0, 0, false, some ⟨41⟩, none⟩,
                  _rt := ⟨0, 0, false⟩ },
                [Call.fx_update ⟨41⟩]) :=
  have key := load_is_update sample_shader_ops sample_rendertarget_ops
    (sample_instance 1 0 0 false) ⟨0, 0, false, none, none⟩ ⟨41⟩ ⟨1⟩ rfl
  ⟨key.1, key.2.1⟩

end ticks

end StreamFX
